import Mathlib

/-
  Verification of the reload core of src/utils/reloads.py.

  The module is embedded shallowly: the pure classification logic
  (protected_dirs, except_dirs, unsafe_modules, safe_dir_to_reload,
  safe_mod_to_reload and the four comprehensions of reload_modules)
  becomes pure Lean functions on lists of strings; the effectful parts
  (cemit_info, the reimport call, the cache-invalidation cascade, the
  asynchronous reset loop) become explicit state passing where external
  collaborator behaviour (channel lookup, channel send, reimport,
  cache-step outcomes) is supplied through an environment record, and a
  python exception escaping a call is an error value that aborts the
  surrounding sequence.
-/

namespace Reloads

/-- Embedding of python str.startswith: character-list prefix test. -/
def startswith (s pre : String) : Bool := pre.data.isPrefixOf s.data

/-- Embedding of python message.split over a single separator character,
splitting at every newline and keeping empty pieces. -/
def splitLinesAux : List Char → List Char → List String
  | [], acc => [String.mk acc.reverse]
  | c :: cs, acc =>
      if c = '\n' then String.mk acc.reverse :: splitLinesAux cs []
      else splitLinesAux cs (c :: acc)

def splitLines (s : String) : List String := splitLinesAux s.data []

/-- Embedding of python "\n".join. -/
def joinLines : List String → String
  | [] => ""
  | [l] => l
  | l :: ls => l ++ "\n" ++ joinLines ls

def commaSep : List String → String
  | [] => ""
  | [x] => x
  | x :: xs => x ++ ", " ++ commaSep xs

/-- Python repr of a list of strings, used by the % formatting of the
warning message. -/
def pyRepr (l : List String) : String :=
  "[" ++ commaSep (l.map (fun s => "'" ++ s ++ "'")) ++ "]"

/-- The row of a ScriptDB entity as seen by reload_modules: its repeat
interval, its typeclass_path and whether it is currently running (the
last field is never read by the classifier). -/
structure Script where
  interval : Int
  typeclass_path : String
  is_running : Bool
deriving Repr, DecidableEq

/-- reloads.py line 37: protected_dirs = ('src.',) -/
def protected_dirs : List String := ["src."]

/-- reloads.py line 38: except_dirs = ('src.commands.default.',) -/
def except_dirs : List String := ["src.commands.default."]

/-- The filter condition of the unsafe_modules loop, reloads.py line 47:
(scriptobj.interval > -1) and scriptobj.typeclass_path. -/
def script_timer_cond (s : Script) : Bool :=
  decide (s.interval > -1) && !(s.typeclass_path == "")

/-- reloads.py lines 45-49: collect the typeclass paths of all scripts
with interval > -1 and a non-empty typeclass_path, deduplicated by
list(set(...)). -/
def unsafe_modules (scripts : List Script) : List String :=
  ((scripts.filter script_timer_cond).map (fun s => s.typeclass_path)).dedup

/-- reloads.py lines 51-53. -/
def safe_dir_to_reload (modpath : String) : Bool :=
  !(protected_dirs.any fun pdir =>
      startswith modpath pdir &&
        !(except_dirs.any fun edir => startswith modpath edir))

/-- reloads.py lines 54-56. -/
def safe_mod_to_reload (unsafe_mods : List String) (modpath : String) : Bool :=
  !(unsafe_mods.any fun mpath => startswith mpath modpath)

/-- reloads.py line 70. -/
def safe_dir_modified (modified : List String) : List String :=
  modified.filter safe_dir_to_reload

/-- reloads.py line 71. -/
def unsafe_dir_modified (modified : List String) : List String :=
  modified.filter (fun m => !(safe_dir_modified modified).contains m)

/-- reloads.py line 72. -/
def safe_modified (scripts : List Script) (modified : List String) : List String :=
  (safe_dir_modified modified).filter (safe_mod_to_reload (unsafe_modules scripts))

/-- reloads.py line 73. -/
def unsafe_mod_modified (scripts : List Script) (modified : List String) : List String :=
  (safe_dir_modified modified).filter
    (fun m => !(safe_modified scripts modified).contains m)

theorem mem_safe_dir_modified (modified : List String) (m : String) :
    m ∈ safe_dir_modified modified ↔ m ∈ modified ∧ safe_dir_to_reload m = true := by
  simp [safe_dir_modified, List.mem_filter]

theorem mem_unsafe_dir_modified (modified : List String) (m : String) :
    m ∈ unsafe_dir_modified modified ↔ m ∈ modified ∧ safe_dir_to_reload m = false := by
  simp [unsafe_dir_modified, List.mem_filter, mem_safe_dir_modified]
  tauto

theorem mem_safe_modified (scripts : List Script) (modified : List String) (m : String) :
    m ∈ safe_modified scripts modified ↔
      m ∈ modified ∧ safe_dir_to_reload m = true ∧
        safe_mod_to_reload (unsafe_modules scripts) m = true := by
  simp [safe_modified, List.mem_filter, mem_safe_dir_modified, and_assoc]

theorem mem_unsafe_mod_modified (scripts : List Script) (modified : List String) (m : String) :
    m ∈ unsafe_mod_modified scripts modified ↔
      m ∈ modified ∧ safe_dir_to_reload m = true ∧
        safe_mod_to_reload (unsafe_modules scripts) m = false := by
  simp only [unsafe_mod_modified, List.mem_filter, List.contains, List.elem_eq_mem,
        Bool.not_eq_true', decide_eq_false_iff_not, mem_safe_dir_modified,
        mem_safe_modified]
  rcases hdir : safe_dir_to_reload m with _ | _ <;>
    rcases hmod : safe_mod_to_reload (unsafe_modules scripts) m with _ | _ <;>
      simp [hdir, hmod]

/-- C1: for every detected-modified input, the three classification
sets are pairwise disjoint and their union is the input set: every
modified identifier lands in exactly one of safe_modified,
unsafe_dir_modified, unsafe_mod_modified. -/
theorem classification_partition (scripts : List Script) (modified : List String) (m : String) :
    (m ∈ modified ↔
      m ∈ safe_modified scripts modified ∨
      m ∈ unsafe_dir_modified modified ∨
      m ∈ unsafe_mod_modified scripts modified) ∧
    ¬(m ∈ safe_modified scripts modified ∧ m ∈ unsafe_dir_modified modified) ∧
    ¬(m ∈ safe_modified scripts modified ∧ m ∈ unsafe_mod_modified scripts modified) ∧
    ¬(m ∈ unsafe_dir_modified modified ∧ m ∈ unsafe_mod_modified scripts modified) := by
  simp only [mem_safe_modified, mem_unsafe_dir_modified, mem_unsafe_mod_modified]
  rcases hdir : safe_dir_to_reload m with _ | _ <;>
    rcases hmod : safe_mod_to_reload (unsafe_modules scripts) m with _ | _ <;>
      simp [hdir, hmod]

theorem scriptTimerCondIff (s : Script) :
    script_timer_cond s = true ↔ s.interval > -1 ∧ s.typeclass_path ≠ "" := by
  simp [script_timer_cond]

theorem mem_unsafe_modules (scripts : List Script) (p : String) :
    p ∈ unsafe_modules scripts ↔
      ∃ s ∈ scripts, s.interval > -1 ∧ s.typeclass_path ≠ "" ∧ s.typeclass_path = p := by
  simp only [unsafe_modules, List.mem_dedup, List.mem_map, List.mem_filter,
    scriptTimerCondIff]
  constructor
  · rintro ⟨s, ⟨hs, h1, h2⟩, h3⟩
    exact ⟨s, hs, h1, h2, h3⟩
  · rintro ⟨s, hs, h1, h2, h3⟩
    exact ⟨s, ⟨hs, h1, h2⟩, h3⟩

theorem unsafe_modules_ignores_running (scripts : List Script) (b : Bool) :
    unsafe_modules (scripts.map (fun s => { s with is_running := b })) =
      unsafe_modules scripts := by
  have h : ∀ l : List Script,
      ((l.map (fun s => { s with is_running := b })).filter script_timer_cond).map
          (fun s => s.typeclass_path)
        = (l.filter script_timer_cond).map (fun s => s.typeclass_path) := by
    intro l
    induction l with
    | nil => rfl
    | cons s l ih =>
        simp only [List.map_cons, List.filter_cons]
        have hs : script_timer_cond { s with is_running := b } = script_timer_cond s := rfl
        rw [hs]
        cases script_timer_cond s <;> simp [ih]
  simp [unsafe_modules, h]

/-- C10: the timer-unsafety set is exactly the deduplicated set of
typeclass paths of scripts with interval > -1 and a non-empty
typeclass_path; it has no duplicates; and it is independent of whether
any script is currently running. -/
theorem unsafe_modules_spec (scripts : List Script) (p : String) (b : Bool) :
    (p ∈ unsafe_modules scripts ↔
      ∃ s ∈ scripts, s.interval > -1 ∧ s.typeclass_path ≠ "" ∧ s.typeclass_path = p) ∧
    (unsafe_modules scripts).Nodup ∧
    unsafe_modules (scripts.map (fun s => { s with is_running := b })) =
      unsafe_modules scripts :=
  ⟨mem_unsafe_modules scripts p, List.nodup_dedup _,
   unsafe_modules_ignores_running scripts b⟩

theorem safe_mod_false_of_script (scripts : List Script) (m : String)
    (hs : ∃ s ∈ scripts, s.interval > -1 ∧ s.typeclass_path ≠ "" ∧
            startswith s.typeclass_path m = true) :
    safe_mod_to_reload (unsafe_modules scripts) m = false := by
  obtain ⟨s, hmem, h1, h2, h3⟩ := hs
  have hp : s.typeclass_path ∈ unsafe_modules scripts :=
    (mem_unsafe_modules scripts s.typeclass_path).2 ⟨s, hmem, h1, h2, rfl⟩
  simp only [safe_mod_to_reload, Bool.not_eq_false', List.any_eq_true]
  exact ⟨s.typeclass_path, hp, h3⟩

theorem safe_dir_of_exception (m : String)
    (hexc : ∃ e ∈ except_dirs, startswith m e = true) :
    safe_dir_to_reload m = true := by
  obtain ⟨e, he, hm⟩ := hexc
  simp only [except_dirs, List.mem_singleton] at he
  subst he
  simp [safe_dir_to_reload, protected_dirs, except_dirs, hm]

/-- C2, counterexample: the identifier src.engine is a prefix of the
typeclass path src.engine.scheduler of a script with interval > -1, yet
because it lies under the protected prefix src. (and under no exception
prefix) the classifier puts it in unsafe_dir_modified and NOT in
unsafe_mod_modified, so rule 3 does not override rule 1. -/
theorem rule3_not_over_rule1_cex :
    startswith "src.engine.scheduler" "src.engine" = true ∧
    (Script.mk 1 "src.engine.scheduler" true).interval > -1 ∧
    unsafe_mod_modified [Script.mk 1 "src.engine.scheduler" true] ["src.engine"] = [] ∧
    unsafe_dir_modified ["src.engine"] = ["src.engine"] := by
  refine ⟨by decide, by decide, by decide, by decide⟩

/-- C2, amended: a modified identifier that is a prefix of the typeclass
path of a script with a live timer is placed in unsafe_mod_modified
whenever it passes the directory check (in particular the timer rule
overrides the exception-prefix allowance), but when it fails the
directory check it is placed in unsafe_dir_modified instead and never
in unsafe_mod_modified (the timer rule does not override the
protected-prefix rule). -/
theorem rule3_scope (scripts : List Script) (modified : List String) (m : String)
    (hmem : m ∈ modified)
    (hs : ∃ s ∈ scripts, s.interval > -1 ∧ s.typeclass_path ≠ "" ∧
            startswith s.typeclass_path m = true) :
    (safe_dir_to_reload m = true → m ∈ unsafe_mod_modified scripts modified) ∧
    (safe_dir_to_reload m = false →
       m ∈ unsafe_dir_modified modified ∧
       m ∉ unsafe_mod_modified scripts modified) := by
  have hmod := safe_mod_false_of_script scripts m hs
  constructor
  · intro hdir
    exact (mem_unsafe_mod_modified scripts modified m).2 ⟨hmem, hdir, hmod⟩
  · intro hdir
    refine ⟨(mem_unsafe_dir_modified modified m).2 ⟨hmem, hdir⟩, ?_⟩
    rw [mem_unsafe_mod_modified]
    rintro ⟨-, h, -⟩
    rw [hdir] at h
    exact absurd h (by simp)

theorem rule3_scope_witness :
    ("src.engine" ∈ ["src.engine"]) ∧
    (∃ s ∈ [Script.mk 1 "src.engine.timers" true],
        s.interval > -1 ∧ s.typeclass_path ≠ "" ∧
        startswith s.typeclass_path "src.engine" = true) ∧
    (safe_dir_to_reload "src.engine" = false →
       "src.engine" ∈ unsafe_dir_modified ["src.engine"] ∧
       "src.engine" ∉ unsafe_mod_modified [Script.mk 1 "src.engine.timers" true]
          ["src.engine"]) :=
  ⟨by decide, by decide,
   (rule3_scope [Script.mk 1 "src.engine.timers" true] ["src.engine"] "src.engine"
      (by decide) (by decide)).2⟩

/-- C3: an identifier under an exception prefix (which in the source is
nested inside the protected prefix) is never placed in
unsafe_dir_modified, and when no live-timer typeclass path has it as a
prefix it ends up in safe_modified. -/
theorem exception_prefix_safe (scripts : List Script) (modified : List String) (m : String)
    (hexc : ∃ e ∈ except_dirs, startswith m e = true) :
    m ∉ unsafe_dir_modified modified ∧
    ((∀ u ∈ unsafe_modules scripts, startswith u m = false) → m ∈ modified →
       m ∈ safe_modified scripts modified) := by
  have hdir := safe_dir_of_exception m hexc
  constructor
  · rw [mem_unsafe_dir_modified]
    rintro ⟨-, h⟩
    rw [hdir] at h
    exact absurd h (by simp)
  · intro hmod hmem
    have hm : safe_mod_to_reload (unsafe_modules scripts) m = true := by
      simp only [safe_mod_to_reload, Bool.not_eq_true', List.any_eq_false]
      intro u hu
      simp [hmod u hu]
    exact (mem_safe_modified scripts modified m).2 ⟨hmem, hdir, hm⟩

theorem exception_prefix_safe_witness :
    (∃ e ∈ except_dirs, startswith "src.commands.default.look" e = true) ∧
    ("src.commands.default.look" ∉ unsafe_dir_modified ["src.commands.default.look"]) ∧
    ((∀ u ∈ unsafe_modules [Script.mk 1 "game.objects.monster" true],
        startswith u "src.commands.default.look" = false) →
      "src.commands.default.look" ∈ ["src.commands.default.look"] →
      "src.commands.default.look" ∈
        safe_modified [Script.mk 1 "game.objects.monster" true]
          ["src.commands.default.look"]) :=
  ⟨by decide,
   (exception_prefix_safe [Script.mk 1 "game.objects.monster" true]
      ["src.commands.default.look"] "src.commands.default.look" (by decide)).1,
   (exception_prefix_safe [Script.mk 1 "game.objects.monster" true]
      ["src.commands.default.look"] "src.commands.default.look" (by decide)).2⟩

/-- C4: an identifier under an exception prefix that is also a prefix of
the typeclass path of a script with interval > -1 is placed in
unsafe_mod_modified and not in safe_modified: the timer-unsafety filter
is applied to the dir-safe list and wins over the exception allowance. -/
theorem timer_beats_exception (scripts : List Script) (modified : List String) (m : String)
    (hmem : m ∈ modified)
    (hexc : ∃ e ∈ except_dirs, startswith m e = true)
    (hs : ∃ s ∈ scripts, s.interval > -1 ∧ s.typeclass_path ≠ "" ∧
            startswith s.typeclass_path m = true) :
    m ∈ unsafe_mod_modified scripts modified ∧
    m ∉ safe_modified scripts modified := by
  have hdir := safe_dir_of_exception m hexc
  have hmod := safe_mod_false_of_script scripts m hs
  constructor
  · exact (mem_unsafe_mod_modified scripts modified m).2 ⟨hmem, hdir, hmod⟩
  · rw [mem_safe_modified]
    rintro ⟨-, -, h⟩
    rw [hmod] at h
    exact absurd h (by simp)

theorem timer_beats_exception_witness :
    ("src.commands.default.timers" ∈ ["src.commands.default.timers"]) ∧
    (∃ e ∈ except_dirs, startswith "src.commands.default.timers" e = true) ∧
    (∃ s ∈ [Script.mk 5 "src.commands.default.timers.TimerScript" false],
        s.interval > -1 ∧ s.typeclass_path ≠ "" ∧
        startswith s.typeclass_path "src.commands.default.timers" = true) ∧
    ("src.commands.default.timers" ∈
        unsafe_mod_modified [Script.mk 5 "src.commands.default.timers.TimerScript" false]
          ["src.commands.default.timers"] ∧
     "src.commands.default.timers" ∉
        safe_modified [Script.mk 5 "src.commands.default.timers.TimerScript" false]
          ["src.commands.default.timers"]) :=
  ⟨by decide, by decide, by decide,
   timer_beats_exception [Script.mk 5 "src.commands.default.timers.TimerScript" false]
     ["src.commands.default.timers"] "src.commands.default.timers"
     (by decide) (by decide) (by decide)⟩

/-- The resolved notification channel as cemit_info sees it: its key and
whether its msg call raises. -/
structure ChannelInfo where
  key : String
  sendFails : Bool

/-- What the try/except of cemit_info, reloads.py lines 154-158, leaves
bound to infochan. Both assignments run inside the try with a bare
except-pass, so three outcomes are observable afterwards:
noChannel - infochan is falsy, because settings.CHANNEL_MUDINFO raised
(infochan still None), or the setting itself was falsy, or get_channel
returned None; channel c - get_channel resolved channel c;
settingsLeftBound - settings.CHANNEL_MUDINFO returned a truthy
non-channel value and the subscript or the get_channel call raised, so
infochan keeps that truthy settings value, which has no key
attribute. -/
inductive LookupOutcome where
  | noChannel
  | channel (c : ChannelInfo)
  | settingsLeftBound

/-- Behaviour of the channel lookup of cemit_info. -/
structure CemitEnv where
  lookup : LookupOutcome

/-- Observable effects of cemit_info: what was handed to
logger.log_infomsg and what was sent over the channel. -/
structure CemitState where
  log : List String
  sent : List String
deriving Repr, DecidableEq

/-- Embedding of cemit_info, reloads.py lines 146-165: always log the
message; run the two lookup assignments inside try/except; then branch
on the truthiness of whatever stayed bound to infochan. With a
resolved channel, read its key and send the per-line tagged message (a
failure of the send is NOT caught and escapes as an error). With a
truthy non-channel settings value left bound after get_channel raised,
the key read at line 160 - outside the try - raises uncaught. Only
when infochan is falsy is the per-line NO-MUDINFO-CHANNEL variant
logged instead. -/
def cemit_info (env : CemitEnv) (st : CemitState) (message : String) :
    Except String CemitState :=
  let st1 : CemitState := { st with log := st.log ++ [message] }
  match env.lookup with
  | LookupOutcome.channel chan =>
      let cmessage := joinLines
        ((splitLines message).map (fun line => "[" ++ chan.key ++ "]: " ++ line))
      if chan.sendFails then Except.error "channel send failed"
      else Except.ok { st1 with sent := st1.sent ++ [cmessage] }
  | LookupOutcome.settingsLeftBound =>
      Except.error "attribute error: no key on settings value"
  | LookupOutcome.noChannel =>
      let cmessage := joinLines
        ((splitLines message).map (fun line => "[NO MUDINFO CHANNEL]: " ++ line))
      Except.ok { st1 with log := st1.log ++ [cmessage] }

/-- All lines received by the durable log, in order: each logged string
split at its newlines. -/
def logLines (st : CemitState) : List String :=
  (st.log.map splitLines).flatten

/-- C7, counterexample: when the channel lookup resolves a channel but
the send to it fails, cemit_info raises to its caller instead of
downgrading the failure to log-only output; and when get_channel raised
after a truthy channel setting, the key read on the left-bound settings
value raises out of cemit_info as well. -/
theorem report_send_raises_cex :
    cemit_info (CemitEnv.mk (LookupOutcome.channel (ChannelInfo.mk "MudInfo" true)))
        (CemitState.mk [] []) "hello" =
      Except.error "channel send failed" ∧
    cemit_info (CemitEnv.mk LookupOutcome.settingsLeftBound)
        (CemitState.mk [] []) "hello" =
      Except.error "attribute error: no key on settings value" := ⟨rfl, rfl⟩

/-- C7, amended: only a lookup outcome that leaves no channel bound
(the settings read raising, a falsy channel setting, or get_channel
returning nothing) is downgraded: then cemit_info returns normally and
sends nothing. A failure of the send to a resolved channel is not
caught, and a get_channel failure after a truthy channel setting leaves
the settings value bound, so the key read raises uncaught. -/
theorem report_lookup_failure_safe (env : CemitEnv) (st : CemitState) (message : String)
    (h : env.lookup = LookupOutcome.noChannel) :
    ∃ st2, cemit_info env st message = Except.ok st2 ∧ st2.sent = st.sent := by
  obtain ⟨lk⟩ := env
  simp only at h
  subst h
  exact ⟨_, rfl, rfl⟩

theorem report_lookup_failure_safe_witness :
    (CemitEnv.mk LookupOutcome.noChannel).lookup = LookupOutcome.noChannel ∧
    ∃ st2, cemit_info (CemitEnv.mk LookupOutcome.noChannel) (CemitState.mk [] []) "hello" =
        Except.ok st2 ∧ st2.sent = (CemitState.mk [] []).sent :=
  ⟨rfl,
   report_lookup_failure_safe (CemitEnv.mk LookupOutcome.noChannel)
     (CemitState.mk [] []) "hello" rfl⟩

/-- C8, counterexample: on a two-line message with no resolvable
channel the durable log receives four lines — the raw message's two
lines first (unprefixed) and then the two marker-prefixed lines — not
exactly two prefixed lines. -/
theorem report_log_lines_cex :
    (match cemit_info (CemitEnv.mk LookupOutcome.noChannel) (CemitState.mk [] [])
        "line1\nline2" with
     | Except.ok st2 => logLines st2
     | Except.error _ => []) =
      ["line1", "line2",
       "[NO MUDINFO CHANNEL]: line1", "[NO MUDINFO CHANNEL]: line2"] ∧
    (["line1", "line2",
      "[NO MUDINFO CHANNEL]: line1", "[NO MUDINFO CHANNEL]: line2"] ≠
     ["[NO MUDINFO CHANNEL]: line1", "[NO MUDINFO CHANNEL]: line2"]) :=
  ⟨rfl, by decide⟩

/-- C8, amended: on a two-line message with no resolvable channel the
durable log receives the raw message's two lines followed by a fallback
entry of exactly two lines, each prefixed with the no-channel marker,
in the original order; nothing is sent to any channel. -/
theorem report_log_lines (env : CemitEnv) (h : env.lookup = LookupOutcome.noChannel) :
    ∃ st2, cemit_info env (CemitState.mk [] []) "line1\nline2" = Except.ok st2 ∧
      logLines st2 =
        ["line1", "line2",
         "[NO MUDINFO CHANNEL]: line1", "[NO MUDINFO CHANNEL]: line2"] ∧
      st2.sent = [] := by
  obtain ⟨lk⟩ := env
  simp only at h
  subst h
  exact ⟨_, rfl, rfl, rfl⟩

theorem report_log_lines_witness :
    ((CemitEnv.mk LookupOutcome.noChannel).lookup = LookupOutcome.noChannel) ∧
    ∃ st2, cemit_info (CemitEnv.mk LookupOutcome.noChannel) (CemitState.mk [] [])
          "line1\nline2" = Except.ok st2 ∧
      logLines st2 =
        ["line1", "line2",
         "[NO MUDINFO CHANNEL]: line1", "[NO MUDINFO CHANNEL]: line2"] ∧
      st2.sent = [] :=
  ⟨rfl, report_log_lines (CemitEnv.mk LookupOutcome.noChannel) rfl⟩

/-- The 50-dash ruler '-'*50 of reloads.py. -/
def dashes : String := String.mk (List.replicate 50 '-')

/-- reloads.py lines 75-88: the warning text built when some modules
were refused; empty exactly when both refused lists are empty. -/
def warning_string (udm umm : List String) : String :=
  if udm.isEmpty && umm.isEmpty then ""
  else
    let s := "\n WARNING: Some modules can not be reloaded\n since it would not be safe to do so.\n"
    let s := if udm.isEmpty then s else
      s ++ "\n-The following module(s) is/are located in the src/ directory and\n should not be reloaded without a server reboot:\n  " ++ pyRepr udm ++ "\n"
    let s := if umm.isEmpty then s else
      s ++ "\n-The following modules contains at least one Script class with a timer\n component and which has already spawned instances - these cannot be \n safely cleaned from memory on the fly. Stop all the affected scripts \n or restart the server to safely reload:\n  " ++ pyRepr umm ++ "\n"
    s

/-- Behaviour of all external collaborators the three entry points call:
the channel of cemit_info, the script table, the modified-module list,
and whether each fallible external call raises when invoked. -/
structure ReloadEnv where
  cemitEnv : CemitEnv
  scripts : List Script
  modified : List String
  reimportFails : Bool
  typeclassResetFails : Bool
  exitClearFails : Bool
  channelUpdateFails : Bool
  validateFails : Bool
  validateStarted : Nat
  validateStopped : Nat

/-- Observable effects of one reload_modules run. -/
structure ReloadState where
  cemit : CemitState
  appCacheCleared : Bool
  reimported : List String
  typeclassResetDone : Bool
  exitCleared : Bool
  channelUpdated : Bool
  asyncStarted : Bool
deriving Repr, DecidableEq

/-- Sequencing with python exception semantics: an error value escaping
one statement aborts the rest of the function body. -/
def andThen (r : Option String × ReloadState)
    (f : ReloadState → Option String × ReloadState) : Option String × ReloadState :=
  match r with
  | (some e, st) => (some e, st)
  | (none, st) => f st

/-- A cemit_info call inside reload_modules; its error (a failing send
to a resolved channel) escapes. -/
def cemitStep (ce : CemitEnv) (msg : String) (st : ReloadState) :
    Option String × ReloadState :=
  match cemit_info ce st.cemit msg with
  | Except.ok c => (none, { st with cemit := c })
  | Except.error e => (some e, st)

/-- A call to an external collaborator that either raises or performs
its effect, with no try/except around it in reloads.py. -/
def extStep (fails : Bool) (errmsg : String) (mark : ReloadState → ReloadState)
    (st : ReloadState) : Option String × ReloadState :=
  if fails then (some errmsg, st) else (none, mark st)

/-- reloads.py lines 92-97: announce and run reimport.reimport on the
safe set, or report that nothing was reloaded. -/
def reimport_stage (env : ReloadEnv) (sm : List String) (st : ReloadState) :
    Option String × ReloadState :=
  if sm.isEmpty then cemitStep env.cemitEnv " Nothing was reloaded." st
  else
    andThen (cemitStep env.cemitEnv (" Reloading module(s):\n  " ++ pyRepr sm ++ " ...") st) (fun st =>
    andThen (extStep env.reimportFails "reimport failed"
        (fun s => { s with reimported := sm }) st) (fun st =>
    cemitStep env.cemitEnv " ...all safe modules reloaded." st))

/-- reloads.py lines 99-102: the cache invalidation cascade, three
consecutive unprotected calls. -/
def cascade_stage (env : ReloadEnv) (st : ReloadState) :
    Option String × ReloadState :=
  andThen (extStep env.typeclassResetFails "typeclass reset failed"
      (fun s => { s with typeclassResetDone := true }) st) (fun st =>
  andThen (extStep env.exitClearFails "exit clear failed"
      (fun s => { s with exitCleared := true }) st) (fun st =>
  extStep env.channelUpdateFails "channel update failed"
      (fun s => { s with channelUpdated := true }) st))

/-- reloads.py lines 106-117: announce and fire off the asynchronous
reset loop (run_async itself never raises to the caller; its errors go
to the at_err callback). -/
def async_stage (env : ReloadEnv) (st : ReloadState) :
    Option String × ReloadState :=
  andThen (cemitStep env.cemitEnv " Starting asynchronous object reset loop ..." st)
    (fun st => (none, { st with asyncStarted := true }))

/-- Embedding of reload_modules, reloads.py lines 24-117, with the same
statement order as the source and no exception handling anywhere. -/
def reload_modules (env : ReloadEnv) : Option String × ReloadState :=
  let st0 : ReloadState := ReloadState.mk (CemitState.mk [] []) false [] false false false false
  andThen (cemitStep env.cemitEnv (dashes ++ "\n Cleaning module caches ...") st0) (fun st =>
  let st1 := { st with appCacheCleared := true }
  let sm := safe_modified env.scripts env.modified
  let udm := unsafe_dir_modified env.modified
  let umm := unsafe_mod_modified env.scripts env.modified
  let wstring := warning_string udm umm
  andThen (if wstring == "" then (none, st1) else cemitStep env.cemitEnv wstring st1) (fun st =>
  andThen (reimport_stage env sm st) (fun st =>
  andThen (cascade_stage env st) (fun st =>
  async_stage env st))))

/-- Embedding of reload_scripts, reloads.py lines 119-139; the call to
ScriptDB.objects.validate is an external collaborator supplied through
the environment, and nothing is caught. -/
def reload_scripts (env : ReloadEnv) : Option String × CemitState :=
  match cemit_info env.cemitEnv (CemitState.mk [] []) " Validating scripts ..." with
  | Except.error e => (some e, CemitState.mk [] [])
  | Except.ok c =>
    if env.validateFails then (some "validate failed", c)
    else
      match cemit_info env.cemitEnv c
          (" Started " ++ toString env.validateStarted ++ " script(s). Stopped " ++
           toString env.validateStopped ++ " invalid script(s).") with
      | Except.error e => (some e, c)
      | Except.ok c2 => (none, c2)

/-- Embedding of reload_commands, reloads.py lines 141-144: clear the
cmdset cache, then one cemit_info call whose error escapes. -/
def reload_commands (env : ReloadEnv) : Option String × (Bool × CemitState) :=
  match cemit_info env.cemitEnv (CemitState.mk [] []) (" Cleaned cmdset cache.\n" ++ dashes) with
  | Except.ok c => (none, (true, c))
  | Except.error e => (some e, (true, CemitState.mk [] []))

/-- No call into cemit_info raises with this channel environment: the
lookup either leaves no channel bound (the only failure the try/except
absorbs) or resolves a channel whose msg call succeeds. A lookup that
leaves the truthy settings value bound is NOT ok: its key read
raises. -/
def cemitOkB (ce : CemitEnv) : Bool :=
  match ce.lookup with
  | LookupOutcome.noChannel => true
  | LookupOutcome.channel c => !c.sendFails
  | LookupOutcome.settingsLeftBound => false

theorem cemit_info_ok (ce : CemitEnv) (st : CemitState) (msg : String)
    (h : cemitOkB ce = true) : ∃ c, cemit_info ce st msg = Except.ok c := by
  obtain ⟨lk⟩ := ce
  rcases lk with _ | c | _
  · exact ⟨_, rfl⟩
  · have hs : c.sendFails = false := by
      unfold cemitOkB at h
      simpa using h
    unfold cemit_info
    simp only [hs]
    exact ⟨_, rfl⟩
  · exact absurd h (by simp [cemitOkB])

theorem cemitStep_ok (ce : CemitEnv) (msg : String) (st : ReloadState)
    (h : cemitOkB ce = true) : (cemitStep ce msg st).1 = none := by
  unfold cemitStep
  obtain ⟨c, hc⟩ := cemit_info_ok ce st.cemit msg h
  rw [hc]

theorem andThen_ok {r : Option String × ReloadState}
    {f : ReloadState → Option String × ReloadState}
    (hr : r.1 = none) (hf : ∀ s, (f s).1 = none) : (andThen r f).1 = none := by
  rcases r with ⟨o, s⟩
  cases o with
  | none => exact hf s
  | some e => exact absurd hr (by simp)

theorem reimport_stage_ok (env : ReloadEnv) (sm : List String) (st : ReloadState)
    (hok : cemitOkB env.cemitEnv = true) (h1 : env.reimportFails = false) :
    (reimport_stage env sm st).1 = none := by
  unfold reimport_stage
  split
  · exact cemitStep_ok env.cemitEnv _ st hok
  · refine andThen_ok (cemitStep_ok env.cemitEnv _ st hok) (fun s => ?_)
    refine andThen_ok ?_ (fun s2 => cemitStep_ok env.cemitEnv _ s2 hok)
    simp [extStep, h1]

theorem cascade_stage_ok (env : ReloadEnv) (st : ReloadState)
    (h2 : env.typeclassResetFails = false) (h3 : env.exitClearFails = false)
    (h4 : env.channelUpdateFails = false) :
    (cascade_stage env st).1 = none := by
  unfold cascade_stage
  refine andThen_ok (by simp [extStep, h2]) (fun s => ?_)
  refine andThen_ok (by simp [extStep, h3]) (fun s2 => ?_)
  simp [extStep, h4]

theorem async_stage_ok (env : ReloadEnv) (st : ReloadState)
    (hok : cemitOkB env.cemitEnv = true) : (async_stage env st).1 = none := by
  unfold async_stage
  exact andThen_ok (cemitStep_ok env.cemitEnv _ st hok) (fun s => rfl)

/-- The environment used for the C5 counterexample: a resolved channel
whose msg call raises; everything else succeeds. -/
def envSendFail : ReloadEnv :=
  ReloadEnv.mk (CemitEnv.mk (LookupOutcome.channel (ChannelInfo.mk "MudInfo" true)))
    [] [] false false false false false 0 0

/-- The environment where get_channel raised after a truthy channel
setting: the settings value stays bound and its key read raises. -/
def envLookupRaise : ReloadEnv :=
  ReloadEnv.mk (CemitEnv.mk LookupOutcome.settingsLeftBound)
    [] [] false false false false false 0 0

/-- C5, counterexample: a failure of the channel send inside the
progress reporter escapes all three top-level entry points, and a
get_channel failure after a truthy channel setting escapes as well (the
key read on the left-bound settings value raises); so not every
internal failure is converted to reported text. -/
theorem entrypoint_raises_cex :
    (reload_commands envSendFail).1 = some "channel send failed" ∧
    (reload_modules envSendFail).1 = some "channel send failed" ∧
    (reload_scripts envSendFail).1 = some "channel send failed" ∧
    (reload_commands envLookupRaise).1 =
      some "attribute error: no key on settings value" ∧
    (reload_modules envLookupRaise).1 =
      some "attribute error: no key on settings value" ∧
    (reload_scripts envLookupRaise).1 =
      some "attribute error: no key on settings value" :=
  ⟨rfl, rfl, rfl, rfl, rfl, rfl⟩

/-- C5, amended: the entry points contain no failure handling of their
own — an exception of any collaborator call (reimport, a cache-cascade
step, script validation, the send to a resolved notification channel,
or a get_channel failure after a truthy channel setting, whose
left-bound settings value makes the key read raise) escapes to the
caller; the entry points return normally exactly when no such call
raises, the only absorbed failures being lookup outcomes that leave no
channel bound. -/
theorem entrypoint_propagation (env : ReloadEnv)
    (hok : cemitOkB env.cemitEnv = true)
    (h1 : env.reimportFails = false) (h2 : env.typeclassResetFails = false)
    (h3 : env.exitClearFails = false) (h4 : env.channelUpdateFails = false)
    (h5 : env.validateFails = false) :
    (reload_modules env).1 = none ∧ (reload_scripts env).1 = none ∧
    (reload_commands env).1 = none := by
  refine ⟨?_, ?_, ?_⟩
  · unfold reload_modules
    refine andThen_ok (cemitStep_ok env.cemitEnv _ _ hok) (fun s => ?_)
    refine andThen_ok ?_ (fun s2 => ?_)
    · split
      · rfl
      · exact cemitStep_ok env.cemitEnv _ _ hok
    · refine andThen_ok (reimport_stage_ok env _ s2 hok h1) (fun s3 => ?_)
      refine andThen_ok (cascade_stage_ok env s3 h2 h3 h4) (fun s4 => ?_)
      exact async_stage_ok env s4 hok
  · unfold reload_scripts
    obtain ⟨c, hc⟩ := cemit_info_ok env.cemitEnv (CemitState.mk [] []) " Validating scripts ..." hok
    rw [hc]
    simp only [h5, Bool.false_eq_true, if_false]
    obtain ⟨c2, hc2⟩ := cemit_info_ok env.cemitEnv c
      (" Started " ++ toString env.validateStarted ++ " script(s). Stopped " ++
       toString env.validateStopped ++ " invalid script(s).") hok
    rw [hc2]
  · unfold reload_commands
    obtain ⟨c, hc⟩ := cemit_info_ok env.cemitEnv (CemitState.mk [] [])
      (" Cleaned cmdset cache.\n" ++ dashes) hok
    rw [hc]

/-- An all-success environment for the C5 witness: the channel lookup
leaves no channel bound (e.g. the settings read raised, which must be
tolerated), every other collaborator succeeds. -/
def envAllOk : ReloadEnv :=
  ReloadEnv.mk (CemitEnv.mk LookupOutcome.noChannel)
    [Script.mk 5 "game.objects.monster" true]
    ["game.commands.look", "src.engine.core"] false false false false false 1 0

theorem entrypoint_propagation_witness :
    cemitOkB envAllOk.cemitEnv = true ∧
    envAllOk.reimportFails = false ∧
    envAllOk.typeclassResetFails = false ∧
    envAllOk.exitClearFails = false ∧
    envAllOk.channelUpdateFails = false ∧
    envAllOk.validateFails = false ∧
    ((reload_modules envAllOk).1 = none ∧ (reload_scripts envAllOk).1 = none ∧
     (reload_commands envAllOk).1 = none) :=
  ⟨rfl, rfl, rfl, rfl, rfl, rfl,
   entrypoint_propagation envAllOk rfl rfl rfl rfl rfl rfl⟩

def abortsClean (r : Option String × ReloadState) : Prop :=
  r.1.isSome = true ∧ r.2.exitCleared = false ∧ r.2.channelUpdated = false

theorem andThen_aborts {r : Option String × ReloadState}
    {f : ReloadState → Option String × ReloadState}
    (hflags : r.2.exitCleared = false ∧ r.2.channelUpdated = false)
    (hf : ∀ s, s.exitCleared = false → s.channelUpdated = false → abortsClean (f s)) :
    abortsClean (andThen r f) := by
  rcases r with ⟨o, s⟩
  cases o with
  | none => exact hf s hflags.1 hflags.2
  | some e => exact ⟨rfl, hflags.1, hflags.2⟩

theorem andThen_flags {e0 c0 : Bool} {r : Option String × ReloadState}
    {f : ReloadState → Option String × ReloadState}
    (hr : r.2.exitCleared = e0 ∧ r.2.channelUpdated = c0)
    (hf : ∀ s, s.exitCleared = e0 → s.channelUpdated = c0 →
       (f s).2.exitCleared = e0 ∧ (f s).2.channelUpdated = c0) :
    (andThen r f).2.exitCleared = e0 ∧ (andThen r f).2.channelUpdated = c0 := by
  rcases r with ⟨o, s⟩
  cases o with
  | none => exact hf s hr.1 hr.2
  | some e => exact hr

theorem cemitStep_flags (ce : CemitEnv) (msg : String) (st : ReloadState) :
    (cemitStep ce msg st).2.exitCleared = st.exitCleared ∧
    (cemitStep ce msg st).2.channelUpdated = st.channelUpdated := by
  unfold cemitStep
  cases cemit_info ce st.cemit msg <;> exact ⟨rfl, rfl⟩

theorem reimport_stage_flags (env : ReloadEnv) (sm : List String) (st : ReloadState) :
    (reimport_stage env sm st).2.exitCleared = st.exitCleared ∧
    (reimport_stage env sm st).2.channelUpdated = st.channelUpdated := by
  unfold reimport_stage
  split
  · exact cemitStep_flags env.cemitEnv _ st
  · refine andThen_flags (cemitStep_flags env.cemitEnv _ st) (fun s hs1 hs2 => ?_)
    refine andThen_flags ?_ (fun s2 h21 h22 => ?_)
    · unfold extStep
      cases env.reimportFails <;> exact ⟨hs1, hs2⟩
    · have hc := cemitStep_flags env.cemitEnv " ...all safe modules reloaded." s2
      exact ⟨hc.1.trans h21, hc.2.trans h22⟩

theorem cascade_stage_fail_eq (env : ReloadEnv) (st : ReloadState)
    (h : env.typeclassResetFails = true) :
    cascade_stage env st = (some "typeclass reset failed", st) := by
  unfold cascade_stage extStep
  rw [h]
  rfl

/-- C6, amended: the cache-invalidation cascade is three consecutive
unprotected calls, so a failure of the typeclass-registry reset aborts
reload_modules and the exit-cache clear and channel-cache update are
never attempted. -/
theorem cascade_failure_aborts (env : ReloadEnv)
    (h : env.typeclassResetFails = true) :
    (reload_modules env).1.isSome = true ∧
    (reload_modules env).2.exitCleared = false ∧
    (reload_modules env).2.channelUpdated = false := by
  have main : abortsClean (reload_modules env) := by
    unfold reload_modules
    refine andThen_aborts ?_ (fun s hs1 hs2 => ?_)
    · exact cemitStep_flags env.cemitEnv _ _
    · refine andThen_aborts ?_ (fun s2 h21 h22 => ?_)
      · split
        · exact ⟨hs1, hs2⟩
        · have hc := cemitStep_flags env.cemitEnv
            (warning_string (unsafe_dir_modified env.modified)
              (unsafe_mod_modified env.scripts env.modified))
            { s with appCacheCleared := true }
          exact ⟨hc.1.trans hs1, hc.2.trans hs2⟩
      · refine andThen_aborts ?_ (fun s3 h31 h32 => ?_)
        · have hr := reimport_stage_flags env (safe_modified env.scripts env.modified) s2
          exact ⟨hr.1.trans h21, hr.2.trans h22⟩
        · rw [show (andThen (cascade_stage env s3) (fun s4 => async_stage env s4)) =
                (some "typeclass reset failed", s3) from by
              rw [cascade_stage_fail_eq env s3 h]; rfl]
          exact ⟨rfl, h31, h32⟩
  exact main

/-- The environment for the C6 counterexample: only the
typeclass-registry reset raises. -/
def envCascadeFail : ReloadEnv :=
  ReloadEnv.mk (CemitEnv.mk LookupOutcome.noChannel) [] [] false true false false false 0 0

/-- C6, counterexample: with a failing typeclass-registry reset the
exit-cache clear and the channel-cache update are not attempted —
reload_modules aborts with the error instead of continuing the
cascade. -/
theorem cascade_abort_cex :
    (reload_modules envCascadeFail).1 = some "typeclass reset failed" ∧
    (reload_modules envCascadeFail).2.exitCleared = false ∧
    (reload_modules envCascadeFail).2.channelUpdated = false := ⟨rfl, rfl, rfl⟩

theorem cascade_failure_aborts_witness :
    envCascadeFail.typeclassResetFails = true ∧
    ((reload_modules envCascadeFail).1.isSome = true ∧
     (reload_modules envCascadeFail).2.exitCleared = false ∧
     (reload_modules envCascadeFail).2.channelUpdated = false) :=
  ⟨rfl, cascade_failure_aborts envCascadeFail rfl⟩

/-- A world-object row as the reset loop sees it: durable fields (dbId,
typeclass_path) plus the two code-derived per-instance caches. -/
structure ObjEntity where
  dbId : Nat
  typeclass_path : String
  cmdsetFresh : Bool
  locksFresh : Bool
deriving Repr, DecidableEq

/-- A persisted entity of a category without a command-set cache
(script, player, help entry, message, channel): durable fields plus the
permission/lock evaluation cache. -/
structure SimpleEntity where
  dbId : Nat
  typeclass_path : String
  locksFresh : Bool
deriving Repr, DecidableEq

/-- Modelled from the spec: o.cmdset.reset, whose code is not under
src/, forces an idempotent rebuild of the code-derived command-set
cache of the instance and touches nothing else. -/
def cmdset_reset (o : ObjEntity) : ObjEntity := { o with cmdsetFresh := true }

/-- Modelled from the spec: o.locks.reset on a world-object, whose code
is not under src/, forces an idempotent rebuild of the permission/lock
evaluation cache of the instance and touches nothing else. -/
def locks_reset_obj (o : ObjEntity) : ObjEntity := { o with locksFresh := true }

/-- Modelled from the spec: locks.reset on the other entity categories,
whose code is not under src/, forces an idempotent rebuild of the
permission/lock evaluation cache and touches nothing else. -/
def locks_reset (e : SimpleEntity) : SimpleEntity := { e with locksFresh := true }

/-- All live instances of the six persisted-entity categories the reset
loop iterates (ObjectDB, ScriptDB, PlayerDB, HelpEntry, Msg, Channel). -/
structure World where
  objects : List ObjEntity
  scripts : List SimpleEntity
  players : List SimpleEntity
  helpEntries : List SimpleEntity
  msgs : List SimpleEntity
  channels : List SimpleEntity
deriving Repr, DecidableEq

/-- Embedding of run_reset_loop, reloads.py lines 107-114: for every
object both cmdset.reset and locks.reset (in that order), for every
script, player, help entry, message and channel only locks.reset. -/
def run_reset_loop (w : World) : World :=
  World.mk
    (w.objects.map (fun o => locks_reset_obj (cmdset_reset o)))
    (w.scripts.map locks_reset)
    (w.players.map locks_reset)
    (w.helpEntries.map locks_reset)
    (w.msgs.map locks_reset)
    (w.channels.map locks_reset)

/-- The durable fields of a world-object. -/
def durableObj (o : ObjEntity) : Nat × String := (o.dbId, o.typeclass_path)

/-- The durable fields of any other entity. -/
def durableSimple (e : SimpleEntity) : Nat × String := (e.dbId, e.typeclass_path)

theorem map_locks_reset_durable (l : List SimpleEntity) :
    (l.map locks_reset).map durableSimple = l.map durableSimple := by
  induction l with
  | nil => rfl
  | cons e l ih => simp [locks_reset, durableSimple, ih]

theorem mem_map_locks_reset_fresh (l : List SimpleEntity) (e : SimpleEntity)
    (he : e ∈ l.map locks_reset) : e.locksFresh = true := by
  rw [List.mem_map] at he
  obtain ⟨e0, -, he0⟩ := he
  rw [← he0]
  rfl

/-- C9: the asynchronous resync sweep rebuilds the permission/lock
evaluation cache of every live instance of every category, rebuilds the
command-set cache (which only the world-object category carries) for
every world-object, and leaves every durable field of every entity
unchanged, preserving each category population and order. -/
theorem reset_loop_effects (w : World) :
    (∀ o ∈ (run_reset_loop w).objects, o.locksFresh = true ∧ o.cmdsetFresh = true) ∧
    (∀ e ∈ (run_reset_loop w).scripts ++ (run_reset_loop w).players ++
            (run_reset_loop w).helpEntries ++ (run_reset_loop w).msgs ++
            (run_reset_loop w).channels, e.locksFresh = true) ∧
    ((run_reset_loop w).objects.map durableObj = w.objects.map durableObj) ∧
    ((run_reset_loop w).scripts.map durableSimple = w.scripts.map durableSimple) ∧
    ((run_reset_loop w).players.map durableSimple = w.players.map durableSimple) ∧
    ((run_reset_loop w).helpEntries.map durableSimple = w.helpEntries.map durableSimple) ∧
    ((run_reset_loop w).msgs.map durableSimple = w.msgs.map durableSimple) ∧
    ((run_reset_loop w).channels.map durableSimple = w.channels.map durableSimple) := by
  refine ⟨?_, ?_, ?_, ?_, ?_, ?_, ?_, ?_⟩
  · intro o ho
    rw [run_reset_loop] at ho
    simp only [List.mem_map] at ho
    obtain ⟨o0, -, ho0⟩ := ho
    rw [← ho0]
    exact ⟨rfl, rfl⟩
  · intro e he
    rw [run_reset_loop] at he
    simp only [List.mem_append] at he
    rcases he with (((he | he) | he) | he) | he <;>
      exact mem_map_locks_reset_fresh _ e he
  · rw [run_reset_loop]
    induction w.objects with
    | nil => rfl
    | cons o l ih => simp_all [locks_reset_obj, cmdset_reset, durableObj]
  all_goals
    rw [run_reset_loop]
    exact map_locks_reset_durable _

end Reloads
